import Mathlib

/-!
Shallow embedding of the request-mediation pipeline of `src/main.py`
(AnyReverseProxy): the sentence trimmer `trim_to_end_sentence`, the
stream re-framer `generate_stream`, the completion handler
`normal_operation`, and the token-authenticated entry point `generate`.

Python strings are modelled as `List Char` where character-level
operations matter (the trimmer, `str.strip`) and as Lean `String`
elsewhere.  Fallible Python code (uncaught exceptions) is modelled with
explicit outcome constructors.  Wire-level JSON serialization is out of
scope: wire events are an inductive type whose `doneEvent` constructor
stands for the literal record `data: [DONE]\n\n`.
-/

namespace AnyProxy

/-- Python whitespace as stripped by `str.rstrip()` / `str.strip()`
(ASCII part: space, tab, newline, carriage return, vertical tab, form
feed). -/
def isPySpace (c : Char) : Bool :=
  c == ' ' || c == '\t' || c == '\n' || c == '\r' || c == '\x0b' || c == '\x0c'

/-- Boolean membership of a character in a character list. -/
def memB (c : Char) : List Char → Bool
  | [] => false
  | t :: ts => c == t || memB c ts

/-- Highest index of the list at which the predicate holds (if any);
this is the semantics of Python `str.rfind` generalized to a
predicate. -/
def lastIdxAux (p : Char → Bool) : List Char → Option Nat
  | [] => none
  | c :: cs =>
    match lastIdxAux p cs with
    | some j => some (j + 1)
    | none => if p c then some 0 else none

/-- Encode an optional index the way Python `str.rfind` reports it:
`-1` for "not found". -/
def oi : Option Nat → Int
  | none => -1
  | some n => (n : Int)

/-- Python `input_str.rfind(ch)` (main.py line 74): the highest index at
which the character occurs, or `-1`. -/
def rfindL (s : List Char) (c : Char) : Int := oi (lastIdxAux (fun x => x == c) s)

/-- main.py line 64: `punctuation = ".!?。！？"`. -/
def punctuation : List Char := ['.', '!', '?', '。', '！', '？']

/-- main.py lines 66-68: the terminator set, extended with the newline
character when `include_newline` is set. -/
def terminators (include_newline : Bool) : List Char :=
  punctuation ++ (if include_newline then ['\n'] else [])

/-- main.py lines 72-76: the loop computing `last_index` as the maximum
over the terminator characters of `input_str.rfind(char)`, starting
from `-1`. -/
def lastTermIdx (s : List Char) (include_newline : Bool) : Int :=
  (terminators include_newline).foldl
    (fun last_index ch =>
      let index := rfindL s ch
      if index > last_index then index else last_index)
    (-1)

/-- Python `str.rstrip()`: remove trailing whitespace. -/
def rstripL (s : List Char) : List Char := (s.reverse.dropWhile isPySpace).reverse

/-- main.py lines 44-84, `trim_to_end_sentence`: slice up to the last
terminator inclusive and strip trailing whitespace; if no terminator is
found, just strip trailing whitespace. -/
def trim_to_end_sentence (input_str : List Char) (include_newline : Bool := false) :
    List Char :=
  let last_index := lastTermIdx input_str include_newline
  if last_index ≠ -1 then rstripL (input_str.take (last_index.toNat + 1))
  else rstripL input_str

/-- main.py lines 86-88: `auto_trim` applies the trimmer with the
default `include_newline=False`. -/
def auto_trim (text : String) : String := String.mk (trim_to_end_sentence text.data)

/-- Spec-side restatement of the trimming algorithm, written from the
spec's words: find the highest index at which ANY terminator occurs (a
single scan rather than the source's per-character `rfind` loop); if
found, keep the prefix through it inclusive with trailing whitespace
removed, otherwise remove trailing whitespace only. -/
def isTerminator (include_newline : Bool) (c : Char) : Bool :=
  memB c (terminators include_newline)

/-- Spec-side trimmer (see `isTerminator`); compared against
`trim_to_end_sentence` for the refinement claim. -/
def trimSpec (s : List Char) (include_newline : Bool) : List Char :=
  match lastIdxAux (isTerminator include_newline) s with
  | some i => rstripL (s.take (i + 1))
  | none => rstripL s

/-- Python `str.lstrip()`. -/
def lstripL (s : List Char) : List Char := s.dropWhile isPySpace

/-- Python `line.strip()` on a whole string. -/
def pyStrip (s : String) : String := String.mk (rstripL (lstripL s.data))

/-- main.py line 270: `{line.strip() for line in f if line.strip()}` —
each line stripped, blank lines dropped.  (Modelled as a list; only
membership is ever queried.) -/
def allowedTokens (fileLines : List String) : List String :=
  (fileLines.map pyStrip).filter (fun line => line != "")

/-- A chat message as handled by `normal_operation` (role and content
fields of the inbound JSON message objects). -/
structure Message where
  role : String
  content : String
deriving DecidableEq

/-- Uncaught Python exceptions that `normal_operation` can raise
(propagating out of the handler, surfaced by the framework as a generic
500 — NOT one of the handler's own explicit error responses). -/
inductive PyExn
  | keyError (key : String)
  | indexError
deriving DecidableEq

/-- The inbound JSON body as a structured record: each field of the
payload that `normal_operation` reads, `none` meaning the key is absent
(`request.json.get(...)` / `request.json["messages"]`). -/
structure InPayload where
  messages? : Option (List Message)
  model? : Option String
  temperature? : Option Rat
  max_tokens? : Option Nat
  stream? : Option Bool
  top_p? : Option Rat
deriving DecidableEq

/-- The `params` dict built at main.py lines 202-209. -/
structure Params where
  messages : List Message
  model : String
  temperature : Rat
  max_tokens : Nat
  stream : Bool
  top_p : Rat
deriving DecidableEq

/-- The `usage` object of a completion response. -/
structure Usage where
  prompt_tokens : Nat
  completion_tokens : Nat
  total_tokens : Nat
deriving DecidableEq

/-- One element of `choices` in a completion response. -/
structure Choice where
  index : Nat
  message : Message
  finish_reason : Option String
deriving DecidableEq

/-- A (non-streaming) completion response object. -/
structure CompletionResponse where
  id : String
  object : String
  created : Nat
  model : String
  choices : List Choice
  usage : Usage
deriving DecidableEq

/-- Module-level configuration read from the environment (main.py lines
14-29) together with the current clock value used for
`int(time.time())`. -/
structure Config where
  apiKey : Option String
  model : String
  prefillEnabled : Bool
  autoTrim : Bool
  assistantPrefill : String
  now : Nat

/-- main.py lines 169-190: the canned response returned for the
"Just say TEST" diagnostic short circuit. -/
def cannedTest (cfg : Config) : CompletionResponse :=
  { id := "chatcmpl-test"
    object := "chat.completion"
    created := cfg.now
    model := cfg.model
    choices := [{ index := 0
                  message := { role := "assistant", content := "TEST" }
                  finish_reason := some "stop" }]
    usage := { prompt_tokens := 10, completion_tokens := 1, total_tokens := 11 } }

/-- main.py lines 195-199: the prefill injection step.  A last message
with role `"user"` gets a fresh assistant message appended; otherwise
the prefill text is concatenated onto the last message's content after
a newline (`messages[-1]["content"] += "\n" + ASSISTANT_PREFILL`).
Indexing `messages[-1]` on an empty list raises `IndexError`. -/
def applyPrefill (prefillText : String) (messages : List Message) :
    Except PyExn (List Message) :=
  match messages.getLast? with
  | none => Except.error PyExn.indexError
  | some lastMsg =>
    if lastMsg.role = "user" then
      Except.ok (messages ++ [{ role := "assistant", content := prefillText }])
    else
      Except.ok (messages.dropLast ++
        [{ role := lastMsg.role, content := lastMsg.content ++ "\n" ++ prefillText }])

/-- Boolean list-prefix test (needle against hay). -/
def isPrefixB : List Char → List Char → Bool
  | [], _ => true
  | _ :: _, [] => false
  | a :: as, b :: bs => a == b && isPrefixB as bs

/-- Python substring containment `needle in hay`. -/
def substrB (needle : List Char) : List Char → Bool
  | [] => needle.isEmpty
  | c :: tl => isPrefixB needle (c :: tl) || substrB needle tl

/-- main.py lines 153 and 235: `"429" in str(error) or "quota" in
str(error).lower()`. -/
def quotaLike (e : String) : Bool :=
  substrB "429".data e.data || substrB "quota".data (e.data.map Char.toLower)

/-- main.py line 237: `"401" in str(error) or "unauthorized" in
str(error).lower()`. -/
def unauthorizedLike (e : String) : Bool :=
  substrB "401".data e.data || substrB "unauthorized".data (e.data.map Char.toLower)

/-- main.py lines 226-229: mutate the first choice's message content
with `auto_trim` (the guard `result.get("choices")` is list truthiness,
i.e. non-emptiness; in this structured model the message field is
always present). -/
def trimFirstChoice (r : CompletionResponse) : CompletionResponse :=
  match r.choices with
  | [] => r
  | ch :: rest =>
    { r with choices :=
        { ch with message :=
            { ch.message with content := auto_trim ch.message.content } } :: rest }

/-- Outcomes of `normal_operation` (main.py lines 158-240).  `raised`
is an uncaught Python exception escaping the handler; `streaming` is
the lazily-evaluated streaming `Response` — at the moment it is
returned the upstream has NOT yet been contacted. -/
inductive NOOutcome
  | badRequest
  | canned (r : CompletionResponse)
  | noApiKey
  | raised (e : PyExn)
  | streaming (params : Params)
  | ok200 (r : CompletionResponse)
  | err429 (msg : String)
  | err401 (msg : String)
  | err500 (msg : String)
deriving DecidableEq

/-- main.py lines 158-240, `normal_operation`.  The upstream client is
passed as an oracle `up` (only the non-streaming branch consults it
inside the handler; the streaming branch returns the generator
unevaluated).  The body is `none` when `request.json` is falsy (line
163); a present payload without a `messages` key raises `KeyError`
(line 166). -/
def normal_operation (cfg : Config) (up : Params → Except String CompletionResponse)
    (body : Option InPayload) : NOOutcome :=
  match body with
  | none => NOOutcome.badRequest
  | some p =>
    match p.messages? with
    | none => NOOutcome.raised (PyExn.keyError "messages")
    | some messages =>
      if messages.head?.map Message.content = some "Just say TEST" then
        NOOutcome.canned (cannedTest cfg)
      else
        match cfg.apiKey with
        | none => NOOutcome.noApiKey
        | some _ =>
          match (if cfg.prefillEnabled then applyPrefill cfg.assistantPrefill messages
                 else Except.ok messages) with
          | Except.error e => NOOutcome.raised e
          | Except.ok messages2 =>
            let is_streaming := p.stream?.getD false
            let params : Params :=
              { messages := messages2
                model := p.model?.getD cfg.model
                temperature := p.temperature?.getD ((9 : Rat) / 10)
                max_tokens := p.max_tokens?.getD 2048
                stream := is_streaming
                top_p := p.top_p?.getD ((9 : Rat) / 10) }
            if is_streaming then NOOutcome.streaming params
            else
              match up params with
              | Except.ok response =>
                NOOutcome.ok200
                  (if cfg.autoTrim then trimFirstChoice response else response)
              | Except.error e =>
                if quotaLike e then NOOutcome.err429 "out of quota"
                else if unauthorizedLike e then
                  NOOutcome.err401 "Unauthorized - check your API key"
                else NOOutcome.err500 e

/-- Upstream finish reasons (the OpenAI SDK types `finish_reason` as an
optional literal among non-empty strings, so Python truthiness of the
field coincides with it being non-`None`). -/
inductive FinishReason
  | stop
  | length
  | contentFilter
  | toolCalls
  | functionCall
deriving DecidableEq

/-- One upstream stream increment as read by `generate_stream`
(main.py lines 128-149). -/
structure StreamChunk where
  id : String
  created : Nat
  model : String
  delta_content : Option String
  finish_reason : Option FinishReason
deriving DecidableEq

/-- Wire events of the re-framed stream.  `chunkEvent` models the
`data: {json.dumps(data)}` record of main.py lines 130-145,
`doneEvent` the sentinel record `data: [DONE]\n\n` of line 148, and
`errorEvent` the in-band error records of lines 154-156. -/
inductive WireEvent
  | chunkEvent (id : String) (created : Nat) (model : String)
      (content : String) (finish : Option FinishReason)
  | doneEvent
  | errorEvent (msg : String)
deriving DecidableEq

/-- main.py lines 153-156: the message of the in-band error event. -/
def streamErrMsg (e : String) : String :=
  if quotaLike e then "out of quota" else "request failed: " ++ e

/-- main.py lines 122-156, `generate_stream`: the upstream increments
are a finite chunk list, optionally followed by a raised exception
(`some e`) — a lazily raised error surfaces only once iteration
reaches it, and is never reached after the loop `break`s on a truthy
`finish_reason`.  Each chunk with non-`None` `delta_content` yields a
content event (carrying the chunk's own `finish_reason`); a truthy
`finish_reason` then yields the sentinel and stops consumption. -/
def generate_stream : List StreamChunk → Option String → List WireEvent
  | [], none => []
  | [], some e => [WireEvent.errorEvent (streamErrMsg e)]
  | chunk :: rest, upErr =>
    (match chunk.delta_content with
     | some content =>
       [WireEvent.chunkEvent chunk.id chunk.created chunk.model content
          chunk.finish_reason]
     | none => []) ++
    (match chunk.finish_reason with
     | some _ => [WireEvent.doneEvent]
     | none => generate_stream rest upErr)

/-- The content event a chunk contributes, if any (used to state the
re-framer claims). -/
def deltaEventOf (c : StreamChunk) : Option WireEvent :=
  c.delta_content.map
    (fun content => WireEvent.chunkEvent c.id c.created c.model content c.finish_reason)

/-- Outcomes of the authenticated entry point `generate`
(main.py lines 256-280). -/
inductive GenOutcome
  | missing401
  | misconfigured500
  | invalid401
  | proceed (r : NOOutcome)
deriving DecidableEq

/-- main.py lines 256-280, `generate` (route `/chat/completions`): the
raw `Authorization` header value (no scheme parsing) is checked against
the freshly loaded whitelist.  `whitelistFile` is the current content
of `whitelist_token.txt` as a list of lines, `none` when the file
cannot be opened (`FileNotFoundError` branch).  A falsy header
(absent or empty) short-circuits to the missing-key 401 before the
file is read. -/
def generate (cfg : Config) (up : Params → Except String CompletionResponse)
    (authHdr : Option String) (whitelistFile : Option (List String))
    (body : Option InPayload) : GenOutcome :=
  match authHdr with
  | none => GenOutcome.missing401
  | some user_token =>
    if user_token = "" then GenOutcome.missing401
    else
      match whitelistFile with
      | none => GenOutcome.misconfigured500
      | some fileLines =>
        if user_token ∈ allowedTokens fileLines then
          GenOutcome.proceed (normal_operation cfg up body)
        else GenOutcome.invalid401

/-- Whether a `generate` outcome passed authorization into the
pipeline. -/
def isProceed : GenOutcome → Bool
  | GenOutcome.proceed _ => true
  | _ => false

/-- Lock/upstream events of one request's lifecycle. -/
inductive LockEv
  | acquire
  | release
  | upstreamCall
deriving DecidableEq

/-- The lock/upstream event trace of one full request lifecycle through
`normal_operation` (main.py lines 158-240).  The whole handler body
runs under `with completion_lock:`; the `with` block is exited — and
the lock released — when the handler returns.  For the non-streaming
path the upstream call happens inside the block; for the streaming path
the handler returns a `Response` wrapping the UNSTARTED generator
`generate_stream`, which Flask iterates only after the view function
has returned, so `client.chat.completions.create` and the whole stream
drain execute after the lock release.  `upstreamCall` stands for the
complete upstream exchange (call plus drain). -/
def lifecycleTrace (cfg : Config) (up : Params → Except String CompletionResponse)
    (body : Option InPayload) : List LockEv :=
  match normal_operation cfg up body with
  | NOOutcome.streaming _ => [LockEv.acquire, LockEv.release, LockEv.upstreamCall]
  | NOOutcome.ok200 _ => [LockEv.acquire, LockEv.upstreamCall, LockEv.release]
  | NOOutcome.err429 _ => [LockEv.acquire, LockEv.upstreamCall, LockEv.release]
  | NOOutcome.err401 _ => [LockEv.acquire, LockEv.upstreamCall, LockEv.release]
  | NOOutcome.err500 _ => [LockEv.acquire, LockEv.upstreamCall, LockEv.release]
  | _ => [LockEv.acquire, LockEv.release]

/-- Check that every `upstreamCall` in a trace happens while the lock
is held (scanning with a held flag, initially not held). -/
def upstreamUnderLock (held : Bool) : List LockEv → Bool
  | [] => true
  | LockEv.acquire :: tr => upstreamUnderLock true tr
  | LockEv.release :: tr => upstreamUnderLock false tr
  | LockEv.upstreamCall :: tr => held && upstreamUnderLock held tr

/-- A fixed upstream oracle for concrete evaluations (always fails with
a generic error). -/
def exUp : Params → Except String CompletionResponse := fun _ => Except.error "boom"

/-- A concrete configuration with an API key, prefill disabled. -/
def exCfg : Config :=
  { apiKey := some "key", model := "m", prefillEnabled := false, autoTrim := true
    assistantPrefill := "PF", now := 0 }

/-- `exCfg` with prefill enabled. -/
def exCfgPrefill : Config := { exCfg with prefillEnabled := true }

/-- A concrete user message. -/
def userMsg : Message := { role := "user", content := "hi" }

/-- A streaming request body. -/
def streamBody : InPayload :=
  { messages? := some [userMsg], model? := none, temperature? := none
    max_tokens? := none, stream? := some true, top_p? := none }

/-- A non-streaming request body. -/
def plainBody : InPayload := { streamBody with stream? := none }

/-- A truthy body with no `messages` key. -/
def noMsgBody : InPayload := { streamBody with messages? := none, stream? := none }

/-- A body with an empty `messages` list. -/
def emptyMsgBody : InPayload := { streamBody with messages? := some [], stream? := none }

/-- The diagnostic message for the short circuit. -/
def testMsg : Message := { role := "user", content := "Just say TEST" }

/-- A body triggering the "Just say TEST" short circuit. -/
def testBody : InPayload :=
  { streamBody with messages? := some [testMsg], stream? := none }

/-- A content-only chunk. -/
def chunkA : StreamChunk :=
  { id := "c1", created := 5, model := "m", delta_content := some "a"
    finish_reason := none }

/-- A chunk carrying content and a finish signal. -/
def chunkB : StreamChunk :=
  { id := "c1", created := 5, model := "m", delta_content := some "b"
    finish_reason := some FinishReason.stop }

/-- A chunk after the finish signal (should be abandoned). -/
def chunkJunk : StreamChunk :=
  { id := "c1", created := 5, model := "m", delta_content := some "z"
    finish_reason := none }

/-- A concrete assistant message. -/
def assistantMsg : Message := { role := "assistant", content := "x" }

/-- Concrete whitelist file content: a padded token line, a blank line,
and a second token line. -/
def wlLines : List String := [" tok \n", "   ", "other"]

/-- C1: the claim states the process-wide lock is held for the whole
upstream interaction including full consumption of a streaming
response.  The code violates this: the `with completion_lock:` block
ends when the view function returns the streaming `Response`, and only
afterwards does Flask iterate the generator that performs the upstream
call and drain — so for a streaming request the upstream exchange runs
entirely outside the lock, while the non-streaming path stays under
it. -/
theorem C1_streaming_escapes_lock :
    lifecycleTrace exCfg exUp (some streamBody)
      = [LockEv.acquire, LockEv.release, LockEv.upstreamCall] ∧
    upstreamUnderLock false (lifecycleTrace exCfg exUp (some streamBody)) = false ∧
    upstreamUnderLock false (lifecycleTrace exCfg exUp (some plainBody)) = true :=
  ⟨rfl, rfl, rfl⟩

/-- C3 counterexample: a truthy JSON body without a `messages` key does
not produce an explicit validation error — `normal_operation` raises an
uncaught `KeyError` (and an empty `messages` list with prefill enabled
and a key configured raises an uncaught `IndexError`). -/
theorem C3_counterexample :
    normal_operation exCfg exUp (some noMsgBody)
      = NOOutcome.raised (PyExn.keyError "messages") ∧
    normal_operation exCfgPrefill exUp (some emptyMsgBody)
      = NOOutcome.raised PyExn.indexError :=
  ⟨rfl, rfl⟩

/-- C3 amended: a body with no `messages` field raises an uncaught
`KeyError`; an empty `messages` list with prefill enabled and an API
key configured raises an uncaught `IndexError`; only a falsy body gets
the explicit 400 error response. -/
theorem C3_amended_uncaught_exceptions :
    (∀ cfg up p, p.messages? = none →
        normal_operation cfg up (some p) = NOOutcome.raised (PyExn.keyError "messages")) ∧
    (∀ cfg up p, cfg.prefillEnabled = true → cfg.apiKey.isSome = true →
        p.messages? = some [] →
        normal_operation cfg up (some p) = NOOutcome.raised PyExn.indexError) ∧
    (∀ cfg up, normal_operation cfg up none = NOOutcome.badRequest) := by
  refine ⟨?_, ?_, ?_⟩
  · intro cfg up p h
    simp [normal_operation, h]
  · intro cfg up p hpre hkey h
    obtain ⟨k, hk⟩ := Option.isSome_iff_exists.mp hkey
    simp [normal_operation, h, hk, hpre, applyPrefill]
  · intro cfg up
    rfl

/-- C3 amended, witness at concrete inputs. -/
theorem C3_amended_uncaught_exceptions_witness :
    normal_operation exCfg exUp (some noMsgBody)
      = NOOutcome.raised (PyExn.keyError "messages") ∧
    normal_operation exCfgPrefill exUp (some emptyMsgBody)
      = NOOutcome.raised PyExn.indexError ∧
    normal_operation exCfg exUp none = NOOutcome.badRequest :=
  ⟨C3_amended_uncaught_exceptions.1 exCfg exUp noMsgBody rfl,
   C3_amended_uncaught_exceptions.2.1 exCfgPrefill exUp emptyMsgBody rfl rfl rfl,
   C3_amended_uncaught_exceptions.2.2 exCfg exUp⟩

/-- C4: a request whose first message content is exactly
"Just say TEST" yields the canned response (content "TEST", usage
10/1/11) without consulting the upstream oracle, independent of the
oracle and of every other field of the payload. -/
theorem C4_test_short_circuit (cfg : Config)
    (up : Params → Except String CompletionResponse)
    (p : InPayload) (m : Message) (rest : List Message)
    (h1 : p.messages? = some (m :: rest)) (h2 : m.content = "Just say TEST") :
    normal_operation cfg up (some p) = NOOutcome.canned (cannedTest cfg) ∧
    ((cannedTest cfg).choices.head?.map fun ch => ch.message.content) = some "TEST" ∧
    (cannedTest cfg).usage
      = { prompt_tokens := 10, completion_tokens := 1, total_tokens := 11 } ∧
    (∀ up2 (p2 : InPayload) m2 rest2, p2.messages? = some (m2 :: rest2) →
      m2.content = "Just say TEST" →
      normal_operation cfg up2 (some p2) = normal_operation cfg up (some p)) := by
  have main : ∀ (u : Params → Except String CompletionResponse) (q : InPayload)
      (mm : Message) (rr : List Message), q.messages? = some (mm :: rr) →
      mm.content = "Just say TEST" →
      normal_operation cfg u (some q) = NOOutcome.canned (cannedTest cfg) := by
    intro u q mm rr hq hm
    simp [normal_operation, hq, hm]
  refine ⟨main up p m rest h1 h2, rfl, rfl, ?_⟩
  intro u2 p2 m2 r2 h1b h2b
  rw [main u2 p2 m2 r2 h1b h2b, main up p m rest h1 h2]

/-- C4, witness at a concrete request. -/
theorem C4_test_short_circuit_witness :
    normal_operation exCfg exUp (some testBody) = NOOutcome.canned (cannedTest exCfg) :=
  (C4_test_short_circuit exCfg exUp testBody testMsg [] rfl rfl).1

/-- C5: with prefill enabled and a non-empty message list, a last
message with role "user" gets a fresh assistant message holding the
prefill text appended (all earlier messages kept verbatim); any other
last role gets its content replaced by the old content, a newline and
the prefill text, all earlier messages kept verbatim. -/
theorem C5_prefill_shaping (prefillText : String) (msgs : List Message)
    (lastMsg : Message) (h : msgs.getLast? = some lastMsg) :
    (lastMsg.role = "user" →
      applyPrefill prefillText msgs
        = Except.ok (msgs ++ [{ role := "assistant", content := prefillText }])) ∧
    (lastMsg.role ≠ "user" →
      applyPrefill prefillText msgs
        = Except.ok (msgs.dropLast ++
            [{ role := lastMsg.role
               content := lastMsg.content ++ "\n" ++ prefillText }])) := by
  constructor
  · intro hr
    simp [applyPrefill, h, hr]
  · intro hr
    simp [applyPrefill, h, hr]

/-- C5, witness: both branches at concrete one-message lists. -/
theorem C5_prefill_shaping_witness :
    applyPrefill "PF" [userMsg]
      = Except.ok ([userMsg] ++ [{ role := "assistant", content := "PF" }]) ∧
    applyPrefill "PF" [assistantMsg]
      = Except.ok ([assistantMsg].dropLast ++
          [{ role := assistantMsg.role
             content := assistantMsg.content ++ "\n" ++ "PF" }]) :=
  ⟨(C5_prefill_shaping "PF" [userMsg] userMsg rfl).1 rfl,
   (C5_prefill_shaping "PF" [assistantMsg] assistantMsg rfl).2 (by decide)⟩

/-- C6: the authenticated entry point denies with the missing-key 401
when no (or an empty) Authorization header is supplied, returns the
500 misconfiguration response when the whitelist source is unreadable,
denies with the invalid-key 401 when the token is not among the
stripped non-blank lines, and otherwise passes through to
`normal_operation` on the freshly loaded list. -/
theorem C6_auth_gate (cfg : Config) (up : Params → Except String CompletionResponse)
    (wl : Option (List String)) (body : Option InPayload) (t : String)
    (fileLines : List String) (ht : t ≠ "") :
    generate cfg up none wl body = GenOutcome.missing401 ∧
    generate cfg up (some "") wl body = GenOutcome.missing401 ∧
    generate cfg up (some t) none body = GenOutcome.misconfigured500 ∧
    (t ∉ allowedTokens fileLines →
      generate cfg up (some t) (some fileLines) body = GenOutcome.invalid401) ∧
    (t ∈ allowedTokens fileLines →
      generate cfg up (some t) (some fileLines) body
        = GenOutcome.proceed (normal_operation cfg up body)) := by
  refine ⟨rfl, rfl, ?_, ?_, ?_⟩
  · simp [generate, ht]
  · intro hmem
    simp [generate, ht, hmem]
  · intro hmem
    simp [generate, ht, hmem]

/-- C6, witness on a concrete whitelist file. -/
theorem C6_auth_gate_witness :
    generate exCfg exUp (some "tok") (some wlLines) (some plainBody)
      = GenOutcome.proceed (normal_operation exCfg exUp (some plainBody)) ∧
    generate exCfg exUp (some "bad") (some wlLines) (some plainBody)
      = GenOutcome.invalid401 ∧
    generate exCfg exUp none (some wlLines) (some plainBody) = GenOutcome.missing401 ∧
    generate exCfg exUp (some "tok") none (some plainBody)
      = GenOutcome.misconfigured500 := by
  refine ⟨?_, ?_, ?_, ?_⟩
  · exact (C6_auth_gate exCfg exUp (some wlLines) (some plainBody) "tok" wlLines
      (by decide)).2.2.2.2 (by decide)
  · exact (C6_auth_gate exCfg exUp (some wlLines) (some plainBody) "bad" wlLines
      (by decide)).2.2.2.1 (by decide)
  · exact (C6_auth_gate exCfg exUp (some wlLines) (some plainBody) "tok" wlLines
      (by decide)).1
  · exact (C6_auth_gate exCfg exUp (some wlLines) (some plainBody) "tok" wlLines
      (by decide)).2.2.1

/-- C10: with a present Authorization header and a readable whitelist,
authorization passes through if and only if the verbatim header string
is among the whitespace-stripped non-blank lines of the file — no
scheme stripping of any kind. -/
theorem C10_verbatim_membership (cfg : Config)
    (up : Params → Except String CompletionResponse) (body : Option InPayload)
    (t : String) (fileLines : List String) :
    isProceed (generate cfg up (some t) (some fileLines) body) = true ↔
      t ∈ allowedTokens fileLines := by
  by_cases ht : t = ""
  · subst ht
    have hno : ("" : String) ∉ allowedTokens fileLines := by
      intro hmem
      rw [allowedTokens, List.mem_filter] at hmem
      simp at hmem
    simp [generate, isProceed, hno]
  · by_cases hmem : t ∈ allowedTokens fileLines
    · simp [generate, ht, hmem, isProceed]
    · simp [generate, ht, hmem, isProceed]

/-- Helper: the re-framer's output on a stream whose first truthy
finish signal is chunk `c`: one content event per earlier chunk with
content, then `c`'s content event (if any) and the sentinel; the
remainder of the stream and any pending error are abandoned. -/
theorem generate_stream_finish_split (pre : List StreamChunk) (c : StreamChunk)
    (rest : List StreamChunk) (upErr : Option String)
    (hpre : ∀ x ∈ pre, x.finish_reason = none) (hc : c.finish_reason.isSome = true) :
    generate_stream (pre ++ c :: rest) upErr
      = pre.filterMap deltaEventOf ++ ((deltaEventOf c).toList ++ [WireEvent.doneEvent]) := by
  induction pre with
  | nil =>
    obtain ⟨f, hf⟩ := Option.isSome_iff_exists.mp hc
    simp only [List.nil_append, generate_stream, hf, List.filterMap_nil]
    cases hd : c.delta_content <;> simp [deltaEventOf, hd, hf]
  | cons x pre ih =>
    have hx : x.finish_reason = none := hpre x (List.mem_cons_self x pre)
    have hrest : ∀ y ∈ pre, y.finish_reason = none :=
      fun y hy => hpre y (List.mem_cons_of_mem x hy)
    simp only [List.cons_append, generate_stream, hx, List.append_eq]
    rw [ih hrest]
    cases hd : x.delta_content <;> simp [deltaEventOf, hd, hx, List.filterMap_cons]

/-- Helper: the re-framer's output when the upstream raises after
delivering chunks none of which carried a finish signal: the content
events followed by a single in-band error event. -/
theorem generate_stream_error_split (cs : List StreamChunk) (e : String)
    (h : ∀ x ∈ cs, x.finish_reason = none) :
    generate_stream cs (some e)
      = cs.filterMap deltaEventOf ++ [WireEvent.errorEvent (streamErrMsg e)] := by
  induction cs with
  | nil => simp [generate_stream]
  | cons x cs ih =>
    have hx : x.finish_reason = none := h x (List.mem_cons_self x cs)
    have hrest : ∀ y ∈ cs, y.finish_reason = none :=
      fun y hy => h y (List.mem_cons_of_mem x hy)
    simp only [generate_stream, hx]
    rw [ih hrest]
    cases hd : x.delta_content <;> simp [deltaEventOf, hd, hx, List.filterMap_cons]

/-- C7: one content event per chunk with present delta content up to
and including the first chunk with a truthy finish signal, then the
sentinel, nothing after it; the rest of the upstream sequence is
abandoned. -/
theorem C7_reframer_events (pre : List StreamChunk) (c : StreamChunk)
    (rest : List StreamChunk) (upErr : Option String)
    (hpre : ∀ x ∈ pre, x.finish_reason = none) (hc : c.finish_reason.isSome = true) :
    generate_stream (pre ++ c :: rest) upErr
      = pre.filterMap deltaEventOf ++ (deltaEventOf c).toList ++ [WireEvent.doneEvent] := by
  rw [generate_stream_finish_split pre c rest upErr hpre hc, List.append_assoc]

/-- C7, witness: the claim's example sequence (with a trailing
abandoned chunk) produces exactly two content events then the
sentinel. -/
theorem C7_reframer_events_witness :
    generate_stream [chunkA, chunkB, chunkJunk] none
      = [WireEvent.chunkEvent "c1" 5 "m" "a" none,
         WireEvent.chunkEvent "c1" 5 "m" "b" (some FinishReason.stop),
         WireEvent.doneEvent] := by
  have h := C7_reframer_events [chunkA] chunkB [chunkJunk] none
    (by intro x hx; simp at hx; subst hx; rfl) rfl
  simpa [chunkA, chunkB, deltaEventOf] using h

/-- C2 counterexample: a stream ending via an in-band error does NOT
end with the `data: [DONE]` sentinel — the error event is last. -/
theorem C2_counterexample :
    generate_stream [] (some "boom") = [WireEvent.errorEvent "request failed: boom"] ∧
    WireEvent.errorEvent "request failed: boom" ≠ WireEvent.doneEvent := by
  constructor
  · rfl
  · simp

/-- C2 amended: the wire sequence ends with the `data: [DONE]` sentinel
exactly in the finish-signal case; when the stream ends via an in-band
error, the error event itself is the final event and no sentinel
follows. -/
theorem C2_amended_termination :
    (∀ (pre : List StreamChunk) (c : StreamChunk) (rest : List StreamChunk)
        (upErr : Option String), (∀ x ∈ pre, x.finish_reason = none) →
        c.finish_reason.isSome = true →
        (generate_stream (pre ++ c :: rest) upErr).getLast? = some WireEvent.doneEvent) ∧
    (∀ (cs : List StreamChunk) (e : String), (∀ x ∈ cs, x.finish_reason = none) →
        (generate_stream cs (some e)).getLast?
          = some (WireEvent.errorEvent (streamErrMsg e))) := by
  constructor
  · intro pre c rest upErr hpre hc
    rw [generate_stream_finish_split pre c rest upErr hpre hc, ← List.append_assoc]
    exact List.getLast?_concat _
  · intro cs e h
    rw [generate_stream_error_split cs e h]
    exact List.getLast?_concat _

/-- C2 amended, witness: a finish-terminated stream ends with the
sentinel; an error-terminated stream ends with the error event. -/
theorem C2_amended_termination_witness :
    (generate_stream [chunkB] none).getLast? = some WireEvent.doneEvent ∧
    (generate_stream [chunkA] (some "boom")).getLast?
      = some (WireEvent.errorEvent (streamErrMsg "boom")) :=
  ⟨C2_amended_termination.1 [] chunkB [] none (by simp) rfl,
   C2_amended_termination.2 [chunkA] "boom"
     (by intro x hx; simp at hx; subst hx; rfl)⟩

/-- Helper: `oi` is bounded below by `-1`. -/
theorem oi_ge (x : Option Nat) : -1 ≤ oi x := by
  cases x with
  | none => simp [oi]
  | some n => simp only [oi]; omega

/-- Helper: the highest index satisfying a disjunction of predicates is
the maximum of the individual highest indices (in the `-1`-for-absent
encoding). -/
theorem lastIdxAux_or (p q : Char → Bool) (s : List Char) :
    oi (lastIdxAux (fun c => p c || q c) s)
      = max (oi (lastIdxAux p s)) (oi (lastIdxAux q s)) := by
  induction s with
  | nil => simp [lastIdxAux, oi]
  | cons d cs ih =>
    simp only [lastIdxAux]
    cases hA : lastIdxAux p cs <;> cases hB : lastIdxAux q cs <;>
      cases hC : lastIdxAux (fun c => p c || q c) cs <;>
        rw [hA, hB, hC] at ih <;>
        by_cases hp : p d <;> by_cases hq : q d <;>
          simp [oi, hp, hq] at ih ⊢ <;> omega

/-- Helper: pointwise-equal predicates give the same highest index. -/
theorem lastIdxAux_congrP (p q : Char → Bool) (h : ∀ c, p c = q c) (s : List Char) :
    lastIdxAux p s = lastIdxAux q s := by
  have hpq : p = q := funext h
  rw [hpq]

/-- Helper: the constantly-false predicate has no index. -/
theorem lastIdxAux_false (s : List Char) : lastIdxAux (fun _ => false) s = none := by
  induction s with
  | nil => rfl
  | cons d cs ih => simp [lastIdxAux, ih]

/-- Helper: the source's fold of per-character `rfind` maxima
(main.py lines 72-76) computes the highest index at which any of the
characters occurs. -/
theorem foldl_rfind (s : List Char) (ts : List Char) :
    ∀ a : Int, -1 ≤ a →
      ts.foldl (fun last_index ch =>
          let index := rfindL s ch
          if index > last_index then index else last_index) a
        = max a (oi (lastIdxAux (fun c => memB c ts) s)) := by
  induction ts with
  | nil =>
    intro a ha
    have h0 : lastIdxAux (fun c => memB c ([] : List Char)) s = none := by
      have he : (fun c => memB c ([] : List Char)) = (fun _ : Char => false) := by
        funext c; rfl
      rw [he, lastIdxAux_false]
    simp only [List.foldl_nil, h0, oi]
    omega
  | cons t ts ih =>
    intro a ha
    simp only [List.foldl_cons]
    have hstep : (if rfindL s t > a then rfindL s t else a) = max a (rfindL s t) := by
      rcases le_or_lt (rfindL s t) a with h | h
      · rw [if_neg (not_lt.mpr h), max_eq_left h]
      · rw [if_pos h, max_eq_right h.le]
    have hini : -1 ≤ max a (rfindL s t) := le_trans ha (le_max_left _ _)
    rw [hstep, ih (max a (rfindL s t)) hini]
    have hpred : lastIdxAux (fun c => memB c (t :: ts)) s
        = lastIdxAux (fun c => (c == t) || memB c ts) s := by
      apply lastIdxAux_congrP
      intro c
      rfl
    rw [hpred, lastIdxAux_or, max_assoc]
    rfl

/-- Helper: the source's `last_index` loop equals the highest index at
which any terminator occurs. -/
theorem lastTermIdx_eq (s : List Char) (b : Bool) :
    lastTermIdx s b = oi (lastIdxAux (isTerminator b) s) := by
  unfold lastTermIdx
  rw [foldl_rfind s (terminators b) (-1) le_rfl]
  rw [max_eq_right (oi_ge _)]
  rfl

/-- Helper (spec refinement): the trimmer equals its spec-side
single-scan restatement. -/
theorem trim_eq_trimSpec (s : List Char) (b : Bool) :
    trim_to_end_sentence s b = trimSpec s b := by
  simp only [trim_to_end_sentence, trimSpec, lastTermIdx_eq]
  cases h : lastIdxAux (isTerminator b) s with
  | none => simp [oi]
  | some i =>
    have h1 : ((i : Int)) ≠ -1 := by omega
    have h2 : ((i : Int)).toNat = i := by omega
    simp [oi, h1, h2]

/-- Helper: `dropWhile` is idempotent. -/
theorem dropWhile_self (p : Char → Bool) (l : List Char) :
    (l.dropWhile p).dropWhile p = l.dropWhile p := by
  induction l with
  | nil => rfl
  | cons a l ih =>
    by_cases h : p a
    · simp [List.dropWhile_cons, h, ih]
    · simp [List.dropWhile_cons, h]

/-- Helper: `rstripL` is idempotent. -/
theorem rstripL_idem (s : List Char) : rstripL (rstripL s) = rstripL s := by
  unfold rstripL
  rw [List.reverse_reverse, dropWhile_self]

/-- Helper: characters of the stripped string come from the string. -/
theorem mem_rstripL {a : Char} {s : List Char} (h : a ∈ rstripL s) : a ∈ s := by
  unfold rstripL at h
  rw [List.mem_reverse] at h
  have h2 := (List.dropWhile_sublist (p := isPySpace) (l := s.reverse)).subset h
  exact List.mem_reverse.mp h2

/-- Helper: no index exists iff the predicate fails everywhere. -/
theorem lastIdxAux_eq_none_iff (p : Char → Bool) (l : List Char) :
    lastIdxAux p l = none ↔ ∀ c ∈ l, p c = false := by
  induction l with
  | nil => simp [lastIdxAux]
  | cons d cs ih =>
    simp only [lastIdxAux]
    cases h : lastIdxAux p cs with
    | some j =>
      have hno : ¬ ∀ c ∈ d :: cs, p c = false := by
        intro hall
        have h0 : lastIdxAux p cs = none :=
          ih.mpr (fun c hc => hall c (List.mem_cons_of_mem d hc))
        rw [h0] at h
        simp at h
      constructor
      · intro hcontra
        exact Option.noConfusion hcontra
      · intro hall
        exact absurd hall hno
    | none =>
      have hall := ih.mp h
      by_cases hd : p d
      · constructor
        · intro hif
          simp [hd] at hif
        · intro hall2
          exact absurd (hall2 d (List.mem_cons_self d cs)) (by simp [hd])
      · constructor
        · intro _ c hc
          rcases List.mem_cons.mp hc with rfl | hc2
          · simpa using hd
          · exact hall c hc2
        · intro _
          simp [hd]

/-- Helper: appending an element satisfying the predicate makes its
position the highest index. -/
theorem lastIdxAux_concat (p : Char → Bool) (c : Char) (hpc : p c = true)
    (l : List Char) : lastIdxAux p (l ++ [c]) = some l.length := by
  induction l with
  | nil => simp [lastIdxAux, hpc]
  | cons d l ih => simp [lastIdxAux, ih]

/-- Helper: the prefix through the highest index ends in an element
satisfying the predicate. -/
theorem lastIdxAux_take_split (p : Char → Bool) (s : List Char) (i : Nat)
    (h : lastIdxAux p s = some i) :
    ∃ c, s.take (i + 1) = s.take i ++ [c] ∧ p c = true ∧ i < s.length := by
  induction s generalizing i with
  | nil => simp [lastIdxAux] at h
  | cons d cs ih =>
    simp only [lastIdxAux] at h
    cases hcs : lastIdxAux p cs with
    | some j =>
      rw [hcs] at h
      have hi : i = j + 1 := (Option.some.inj h).symm
      subst hi
      obtain ⟨c, hsp, hpc, hlt⟩ := ih j hcs
      refine ⟨c, ?_, hpc, ?_⟩
      · simp [List.take_succ_cons, hsp]
      · simp only [List.length_cons]
        omega
    | none =>
      rw [hcs] at h
      by_cases hd : p d
      · rw [if_pos hd] at h
        have hi : i = 0 := (Option.some.inj h).symm
        subst hi
        exact ⟨d, by simp, hd, by simp⟩
      · rw [if_neg hd] at h
        exact absurd h (by simp)

/-- Helper: stripping does nothing to a string ending in a
non-whitespace character. -/
theorem rstripL_concat_nonspace {c : Char} (hc : isPySpace c = false)
    (l : List Char) : rstripL (l ++ [c]) = l ++ [c] := by
  unfold rstripL
  simp [List.reverse_append, List.dropWhile_cons, hc]

/-- Helper: with `include_newline = false` every terminator is a
non-whitespace character. -/
theorem terminator_false_not_space {c : Char} (h : isTerminator false c = true) :
    isPySpace c = false := by
  have h2 : c = '.' ∨ c = '!' ∨ c = '?' ∨ c = '。' ∨ c = '！' ∨ c = '？' := by
    simpa [isTerminator, terminators, punctuation, memB] using h
  rcases h2 with rfl|rfl|rfl|rfl|rfl|rfl <;> rfl

/-- Helper: the spec-side trimmer is idempotent whenever no terminator
is whitespace. -/
theorem trimSpec_idem (s : List Char) (b : Bool)
    (hb : ∀ c, isTerminator b c = true → isPySpace c = false) :
    trimSpec (trimSpec s b) b = trimSpec s b := by
  cases h : lastIdxAux (isTerminator b) s with
  | none =>
    have e1 : trimSpec s b = rstripL s := by
      simp only [trimSpec, h]
    rw [e1]
    have hnone : lastIdxAux (isTerminator b) (rstripL s) = none := by
      rw [lastIdxAux_eq_none_iff]
      intro c hc
      exact (lastIdxAux_eq_none_iff _ _).mp h c (mem_rstripL hc)
    simp only [trimSpec, hnone]
    exact rstripL_idem s
  | some i =>
    obtain ⟨c, hsp, hpc, hlt⟩ := lastIdxAux_take_split (isTerminator b) s i h
    have hcs : isPySpace c = false := hb c hpc
    have e1 : trimSpec s b = s.take i ++ [c] := by
      simp only [trimSpec, h]
      rw [hsp]
      exact rstripL_concat_nonspace hcs _
    rw [e1]
    have hlast : lastIdxAux (isTerminator b) (s.take i ++ [c])
        = some (s.take i).length := lastIdxAux_concat _ c hpc _
    simp only [trimSpec, hlast]
    have htk : (s.take i ++ [c]).take ((s.take i).length + 1) = s.take i ++ [c] := by
      have hlen : (s.take i ++ [c]).length = (s.take i).length + 1 := by simp
      rw [← hlen, List.take_length]
    rw [htk]
    exact rstripL_concat_nonspace hcs _

/-- C8 counterexample: the claim's example `trim("A? B! C") ==
"A? B! C"` is wrong — the highest terminator is the `!` at index 4, so
the code returns `"A? B!"` and cuts the trailing `" C"`. -/
theorem C8_counterexample :
    trim_to_end_sentence "A? B! C".data = "A? B!".data ∧
    "A? B!".data ≠ "A? B! C".data := by
  constructor
  · decide
  · decide

/-- C8 amended: the trimmer equals the spec's description (prefix
through the highest-index terminator inclusive with trailing whitespace
removed, else just trailing whitespace removed); the claim's examples
hold except that `trim("A? B! C")` is `"A? B!"`, not `"A? B! C"`. -/
theorem C8_amended_trim :
    (∀ (s : List Char) (b : Bool), trim_to_end_sentence s b = trimSpec s b) ∧
    trim_to_end_sentence "Hello. World".data = "Hello.".data ∧
    trim_to_end_sentence "A? B! C".data = "A? B!".data ∧
    trim_to_end_sentence "Line one\nLine two".data true = "Line one".data := by
  refine ⟨trim_eq_trimSpec, by decide, by decide, by decide⟩

/-- C9 counterexample: with `include_newline = true` the trimmer is not
idempotent: on `"a. b\n"` one application keeps `"a. b"` (the newline
terminator is stripped as whitespace), a second application cuts at the
period and yields `"a."`. -/
theorem C9_counterexample :
    trim_to_end_sentence (trim_to_end_sentence "a. b\n".data true) true
      ≠ trim_to_end_sentence "a. b\n".data true := by
  decide

/-- C9 amended: the trimmer is idempotent for `include_newline = false`
(the default, and the configuration `auto_trim` uses); for
`include_newline = true` idempotence can fail because the newline
terminator is itself whitespace and may be stripped away, exposing an
earlier terminator. -/
theorem C9_amended_idempotent (s : List Char) :
    trim_to_end_sentence (trim_to_end_sentence s false) false
      = trim_to_end_sentence s false := by
  simp only [trim_eq_trimSpec]
  exact trimSpec_idem s false (fun c h => terminator_false_not_space h)

end AnyProxy
